import Mathlib

/-!
Shallow embedding of `src/index.js` (ethio-translator-app-backend-service).

The repository is an Express gateway with five POST routes.  We embed:

* `extractTextFromHTML` — the HTML-to-text stripper built from three JS
  regex `replace` passes (`/<script.*?>.*?<\/script>/gi`,
  `/<style.*?>.*?<\/style>/gi`, `/<[^>]+>/g`) followed by `trim()`.
  JS regex semantics are modelled faithfully: `.` does not match line
  terminators, `*?` is lazy with backtracking, `i` folds ASCII case,
  `g` rescans after each match (advancing one character when no match
  starts at the current position).
* the five route handlers, as pure functions from the request fields and
  the outcomes of the external calls (modelled as oracle values) to the
  HTTP response together with the trace of external calls (and, for
  `/speech-to-text`, the trace of filesystem operations).
-/

/-- Line terminators not matched by `.` in a JS regex without the `s` flag. -/
def isLineTerm (c : Char) : Bool :=
  c == '\n' || c == '\r' || c == ' ' || c == ' '

/-- Case-insensitive match of one pattern character `p` (the patterns in the
source are lowercase) against an input character `c`, modelling the `i` flag
for ASCII: `c` matches if it equals `p` or is the uppercase form of `p`. -/
def ciCharMatch (p c : Char) : Bool :=
  p == c || (p.isLower && c.toNat + 32 == p.toNat)

/-- Match the literal token `tok` (case-insensitively) at the head of the
input; on success return the remainder of the input. -/
def ciStrip : List Char → List Char → Option (List Char)
  | [], cs => some cs
  | _ :: _, [] => none
  | p :: ps, c :: cs => if ciCharMatch p c then ciStrip ps cs else none

/-- `.*?tok`: lazily consume non-line-terminator characters until `tok`
matches, returning the remainder after `tok`.  The token is tried first at
each position (lazy `*?`). -/
def lazyCi (tok : List Char) : List Char → Option (List Char)
  | [] => ciStrip tok []
  | c :: cs =>
    match ciStrip tok (c :: cs) with
    | some r => some r
    | none => if isLineTerm c then none else lazyCi tok cs

/-- After the open token has matched, complete `.*?>.*?closeTok` with full
backtracking: at each `'>'` try to finish with `lazyCi closeTok`; on failure
the `'>'` is consumed by the first `.*?` and the scan continues. -/
def closeAfterOpen (closeTok : List Char) : List Char → Option (List Char)
  | [] => none
  | c :: cs =>
    if c == '>' then
      match lazyCi closeTok cs with
      | some r => some r
      | none => closeAfterOpen closeTok cs
    else if isLineTerm c then none
    else closeAfterOpen closeTok cs

/-- Whole-pattern match of `openTok.*?>.*?closeTok` at the head of the input;
on success returns the input remaining after the match. -/
def blockEnd (openTok closeTok : List Char) (l : List Char) : Option (List Char) :=
  match ciStrip openTok l with
  | some rest => closeAfterOpen closeTok rest
  | none => none

theorem ciStrip_length : ∀ (tok cs r : List Char),
    ciStrip tok cs = some r → r.length + tok.length = cs.length := by
  intro tok
  induction tok with
  | nil =>
    intro cs r h
    simp only [ciStrip, Option.some.injEq] at h
    simp [h]
  | cons p ps ih =>
    intro cs r h
    cases cs with
    | nil => simp [ciStrip] at h
    | cons c cs' =>
      simp only [ciStrip] at h
      by_cases hm : ciCharMatch p c = true
      · rw [if_pos hm] at h
        have := ih cs' r h
        simp only [List.length_cons]
        omega
      · rw [if_neg hm] at h; exact absurd h (by simp)

theorem lazyCi_length_le : ∀ (tok cs r : List Char),
    lazyCi tok cs = some r → r.length ≤ cs.length := by
  intro tok cs
  induction cs with
  | nil =>
    intro r h
    simp only [lazyCi] at h
    have := ciStrip_length tok [] r h
    simp only [List.length_nil] at this ⊢
    omega
  | cons c cs' ih =>
    intro r h
    simp only [lazyCi] at h
    split at h
    · next r' heq =>
      injection h with h
      subst h
      have := ciStrip_length tok (c :: cs') r' heq
      simp only [List.length_cons] at this ⊢
      omega
    · split at h
      · exact absurd h (by simp)
      · have := ih r h
        simp only [List.length_cons]
        omega

theorem closeAfterOpen_length_lt : ∀ (tok cs r : List Char),
    closeAfterOpen tok cs = some r → r.length < cs.length := by
  intro tok cs
  induction cs with
  | nil => intro r h; simp [closeAfterOpen] at h
  | cons c cs' ih =>
    intro r h
    simp only [closeAfterOpen] at h
    split at h
    · split at h
      · next r' heq =>
        injection h with h
        subst h
        have := lazyCi_length_le tok cs' r' heq
        simp only [List.length_cons]
        omega
      · have := ih r h
        simp only [List.length_cons]
        omega
    · split at h
      · exact absurd h (by simp)
      · have := ih r h
        simp only [List.length_cons]
        omega

theorem blockEnd_length_lt (openTok closeTok l r : List Char)
    (h : blockEnd openTok closeTok l = some r) : r.length < l.length := by
  unfold blockEnd at h
  split at h
  · next rest heq =>
    have h1 := ciStrip_length openTok l rest heq
    have h2 := closeAfterOpen_length_lt closeTok rest r h
    omega
  · exact absurd h (by simp)

/-- One JS global-replace pass deleting every match of
`/openTok.*?>.*?closeTok/gi`: scan left to right, deleting each match and
resuming after it; where no match starts, emit the character and advance.
`fuel` only forces structural recursion; it is irrelevant once it dominates
the input length. -/
def removeBlocksGo (openTok closeTok : List Char) : Nat → List Char → List Char
  | 0, l => l
  | _ + 1, [] => []
  | n + 1, c :: cs =>
    match blockEnd openTok closeTok (c :: cs) with
    | some rem => removeBlocksGo openTok closeTok n rem
    | none => c :: removeBlocksGo openTok closeTok n cs

def removeBlocks (openTok closeTok : List Char) (l : List Char) : List Char :=
  removeBlocksGo openTok closeTok l.length l

theorem removeBlocksGo_fuel (openTok closeTok : List Char) :
    ∀ (n m : Nat) (l : List Char), l.length ≤ n → l.length ≤ m →
      removeBlocksGo openTok closeTok n l = removeBlocksGo openTok closeTok m l := by
  intro n
  induction n with
  | zero =>
    intro m l hn _
    have : l = [] := List.length_eq_zero.mp (Nat.le_zero.mp hn)
    subst this
    cases m <;> rfl
  | succ n ih =>
    intro m l hn hm
    cases l with
    | nil => cases m <;> rfl
    | cons c cs =>
      cases m with
      | zero => simp at hm
      | succ m' =>
        simp only [removeBlocksGo]
        simp only [List.length_cons] at hn hm
        cases hb : blockEnd openTok closeTok (c :: cs) with
        | some rem =>
          have hlt := blockEnd_length_lt openTok closeTok (c :: cs) rem hb
          simp only [List.length_cons] at hlt
          exact ih m' rem (by omega) (by omega)
        | none =>
          rw [ih m' cs (by omega) (by omega)]

theorem removeBlocks_nil (openTok closeTok : List Char) :
    removeBlocks openTok closeTok [] = [] := rfl

theorem removeBlocks_cons (openTok closeTok : List Char) (c : Char) (cs : List Char) :
    removeBlocks openTok closeTok (c :: cs) =
      match blockEnd openTok closeTok (c :: cs) with
      | some rem => removeBlocks openTok closeTok rem
      | none => c :: removeBlocks openTok closeTok cs := by
  unfold removeBlocks
  simp only [List.length_cons, removeBlocksGo]
  cases hb : blockEnd openTok closeTok (c :: cs) with
  | some rem =>
    have hlt := blockEnd_length_lt openTok closeTok (c :: cs) rem hb
    simp only [List.length_cons] at hlt
    exact removeBlocksGo_fuel openTok closeTok cs.length rem.length rem (by omega) (by omega)
  | none =>
    rw [removeBlocksGo_fuel openTok closeTok cs.length cs.length cs (by omega) (by omega)]

/-- Global replace of `/<[^>]+>/g` by the empty string, as a one-pass scan.
State `none`: outside a candidate tag; state `some buf`: `buf` holds
(reversed) the `'<'` and the non-`'>'` characters read since.  A `'>'` with a
non-empty bracket interior completes a match (the buffer is dropped); `<>` is
not a match; end of input with no `'>'` emits the buffer verbatim (no match
can start inside it, as it contains no further `'>'`). -/
def stripTagsAux : Option (List Char) → List Char → List Char
  | none, [] => []
  | some buf, [] => buf.reverse
  | none, c :: cs => if c == '<' then stripTagsAux (some [c]) cs else c :: stripTagsAux none cs
  | some buf, c :: cs =>
    if c == '>' then
      if 2 ≤ buf.length then stripTagsAux none cs
      else buf.reverse ++ c :: stripTagsAux none cs
    else stripTagsAux (some (c :: buf)) cs

def stripTagsGo (l : List Char) : List Char := stripTagsAux none l

/-- Characters removed by JS `String.prototype.trim`. -/
def isJsWhite (c : Char) : Bool :=
  c == ' ' || c == '\t' || c == '\n' || c == '\r' || c == '\x0b' || c == '\x0c' ||
  c == ' ' || c == '﻿' || c == ' ' || c == ' '

/-- JS `trim()`: drop whitespace from both ends. -/
def trimChars (l : List Char) : List Char :=
  ((l.dropWhile isJsWhite).reverse.dropWhile isJsWhite).reverse

def scriptOpen : List Char := "<script".data
def scriptClose : List Char := "</script>".data
def styleOpen : List Char := "<style".data
def styleClose : List Char := "</style>".data

/-- Core of `extractTextFromHTML` on character lists: remove script blocks,
then style blocks, then all remaining `<...>` spans, then trim. -/
def extractChars (l : List Char) : List Char :=
  trimChars (stripTagsGo (removeBlocks styleOpen styleClose
    (removeBlocks scriptOpen scriptClose l)))

/-- `extractTextFromHTML` from `src/index.js` (lines 38–42). -/
def extractTextFromHTML (s : String) : String :=
  String.mk (extractChars s.data)

/-- JS `s.trim()` on strings. -/
def jsTrim (s : String) : String :=
  String.mk (trimChars s.data)


/-! ## Route handlers

Each handler is a pure function of the request fields (a missing JSON field
is `none`) and of the outcomes of the external operations it may perform
(oracle values).  It returns the HTTP response sent and the ordered trace of
external calls actually issued.  A JS falsy check `!x` on a string field
holds exactly when the field is absent (`undefined`) or the empty string. -/

/-- Outcome of one external asynchronous operation: it either resolves with a
value or rejects/throws with an error message. -/
inductive CallResult (α : Type) where
  | ok (v : α)
  | err (msg : String)

/-- A summarization response; `summary_text := none` models an object without
a usable `summary_text` property. -/
structure SummaryResp where
  summary_text : Option String
deriving DecidableEq

/-- A translation response; `translation_text := none` models an object
without a `translation_text` property (property access yields `undefined`). -/
structure TranslationResp where
  translation_text : Option String
deriving DecidableEq

/-- An automatic-speech-recognition response. -/
structure AsrResp where
  text : Option String
deriving DecidableEq

/-- A question-answering response. -/
structure QaResp where
  answer : Option String
deriving DecidableEq

/-- One external call, recorded with the arguments the handler passed. -/
inductive ExtCall where
  | fetch (url : String)
  | summarization (model inputs : String) (maxLength minLength : Nat)
  | translation (model inputs srcLang tgtLang : String)
  | asr (model : String)
  | qa (model question context : String)
deriving DecidableEq

/-- Filesystem operations performed by the speech-to-text handler on the
uploaded temporary file.  `unlinkAsync` is the fire-and-forget
`fs.unlink(path, () => \x7b\x7d)` issued in the catch block. -/
inductive FsOp where
  | readFile (path : String)
  | unlinkSync (path : String)
  | unlinkAsync (path : String)
deriving DecidableEq

/-- The JSON response sent: HTTP status, the single field name of the body
(`"error"` for error bodies), and its value.  `value := none` models a JS
`undefined` field value (dropped on serialization). -/
structure Response where
  status : Nat
  field : String
  value : Option String
deriving DecidableEq

/-- JS falsiness of an optional string field: absent or empty. -/
def undefOrEmpty : Option String → Bool
  | none => true
  | some s => s == ""

/-- `res.status(500).json(\x7b error: error.message || fallback \x7d)`. -/
def errResp (message fallback : String) : Response :=
  { status := 500, field := "error",
    value := some (if message == "" then fallback else message) }

def pegasus : String := "google/pegasus-xsum"
def nllb : String := "facebook/nllb-200-distilled-600M"
def wav2vec : String := "facebook/wav2vec2-large-960h"
def roberta : String := "deepset/roberta-base-squad2"

/-- Message of the TypeError thrown by accessing `.translation_text` on a
null/undefined translation response. -/
def typeErrorMsg : String := "TypeError: cannot read translation_text of undefined"

/-- `app.post("/summarize-text")` (src/index.js lines 44–82). -/
def summarizeTextHandler (text tgtLang : Option String)
    (sres : CallResult (Option SummaryResp))
    (tres : CallResult (Option TranslationResp)) : Response × List ExtCall :=
  if undefOrEmpty text || undefOrEmpty tgtLang then
    ({ status := 400, field := "error",
       value := some "Missing required fields: text or tgtLang" }, [])
  else
    let t := text.getD ""
    let tgt := tgtLang.getD ""
    let fb := "Summarization and translation failed"
    if jsTrim t == "" then
      (errResp "No valid text content provided" fb, [])
    else
      let calls1 := [ExtCall.summarization pegasus t 70 50]
      match sres with
      | .err m => (errResp m fb, calls1)
      | .ok none => (errResp "Summarization failed: No summary text returned" fb, calls1)
      | .ok (some sr) =>
        if undefOrEmpty sr.summary_text then
          (errResp "Summarization failed: No summary text returned" fb, calls1)
        else
          let summary := sr.summary_text.getD ""
          let calls2 := calls1 ++ [ExtCall.translation nllb summary "eng_Latn" tgt]
          match tres with
          | .err m => (errResp m fb, calls2)
          | .ok none => (errResp typeErrorMsg fb, calls2)
          | .ok (some tr) =>
            ({ status := 200, field := "translatedSummary",
               value := tr.translation_text }, calls2)

/-- `app.post("/summarize")` (src/index.js lines 86–129).  `fres` is the
outcome of `fetchWebsiteContent` before its catch block; the helper rethrows
every failure as `"Failed to fetch website content"`. -/
def summarizeHandler (url tgtLang : Option String)
    (fres : CallResult String)
    (sres : CallResult (Option SummaryResp))
    (tres : CallResult (Option TranslationResp)) : Response × List ExtCall :=
  if undefOrEmpty url || undefOrEmpty tgtLang then
    ({ status := 400, field := "error",
       value := some "Missing required fields: url or tgtLang" }, [])
  else
    let u := url.getD ""
    let tgt := tgtLang.getD ""
    let fb := "Summarization and translation failed"
    let calls0 := [ExtCall.fetch u]
    match fres with
    | .err _ => (errResp "Failed to fetch website content" fb, calls0)
    | .ok html =>
      let textContent := extractTextFromHTML html
      if textContent == "" || jsTrim textContent == "" then
        (errResp "No text content found on the website" fb, calls0)
      else
        let calls1 := calls0 ++ [ExtCall.summarization pegasus textContent 70 50]
        match sres with
        | .err m => (errResp m fb, calls1)
        | .ok none => (errResp "Summarization failed: No summary text returned" fb, calls1)
        | .ok (some sr) =>
          if undefOrEmpty sr.summary_text then
            (errResp "Summarization failed: No summary text returned" fb, calls1)
          else
            let summary := sr.summary_text.getD ""
            let calls2 := calls1 ++ [ExtCall.translation nllb summary "eng_Latn" tgt]
            match tres with
            | .err m => (errResp m fb, calls2)
            | .ok none => (errResp typeErrorMsg fb, calls2)
            | .ok (some tr) =>
              ({ status := 200, field := "summary", value := tr.translation_text }, calls2)

/-- `app.post("/speech-to-text")` (src/index.js lines 132–161).  `file` is
`req.file`'s path if a file was uploaded; `readRes` is the outcome of
`fs.readFileSync`; `ares` the outcome of the ASR call.  The third component
of the result is the trace of filesystem operations on the temp file. -/
def speechToTextHandler (file : Option String)
    (readRes : CallResult Unit)
    (ares : CallResult (Option AsrResp)) : Response × List ExtCall × List FsOp :=
  match file with
  | none =>
    ({ status := 400, field := "error", value := some "No audio file uploaded" }, [], [])
  | some p =>
    match readRes with
    | .err _ =>
      ({ status := 500, field := "error", value := some "Speech-to-text conversion failed" },
       [], [FsOp.readFile p, FsOp.unlinkAsync p])
    | .ok _ =>
      match ares with
      | .err _ =>
        ({ status := 500, field := "error", value := some "Speech-to-text conversion failed" },
         [ExtCall.asr wav2vec], [FsOp.readFile p, FsOp.unlinkAsync p])
      | .ok resp =>
        let ops := [FsOp.readFile p, FsOp.unlinkSync p]
        match resp with
        | none =>
          ({ status := 500, field := "error", value := some "Speech-to-text failed" },
           [ExtCall.asr wav2vec], ops)
        | some r =>
          if undefOrEmpty r.text then
            ({ status := 500, field := "error", value := some "Speech-to-text failed" },
             [ExtCall.asr wav2vec], ops)
          else
            ({ status := 200, field := "transcription", value := r.text },
             [ExtCall.asr wav2vec], ops)

/-- `app.post("/translate")` (src/index.js lines 164–183).  The catch block
always answers `"Translation failed"`, whatever was thrown. -/
def translateHandler (text srcLang tgtLang : Option String)
    (tres : CallResult (Option TranslationResp)) : Response × List ExtCall :=
  if undefOrEmpty text || undefOrEmpty srcLang || undefOrEmpty tgtLang then
    ({ status := 400, field := "error", value := some "Missing required fields" }, [])
  else
    let t := text.getD ""
    let s := srcLang.getD ""
    let g := tgtLang.getD ""
    let calls := [ExtCall.translation nllb t s g]
    match tres with
    | .err _ =>
      ({ status := 500, field := "error", value := some "Translation failed" }, calls)
    | .ok none =>
      ({ status := 500, field := "error", value := some "Translation failed" }, calls)
    | .ok (some tr) =>
      ({ status := 200, field := "translatedText", value := tr.translation_text }, calls)

/-- `app.post("/qa")` (src/index.js lines 186–218). -/
def qaHandler (url question : Option String)
    (fres : CallResult String)
    (qres : CallResult (Option QaResp)) : Response × List ExtCall :=
  if undefOrEmpty url || undefOrEmpty question then
    ({ status := 400, field := "error",
       value := some "Missing required fields: url or question" }, [])
  else
    let u := url.getD ""
    let q := question.getD ""
    let fb := "Question answering failed"
    let calls0 := [ExtCall.fetch u]
    match fres with
    | .err _ => (errResp "Failed to fetch website content" fb, calls0)
    | .ok html =>
      let textContent := extractTextFromHTML html
      if textContent == "" || jsTrim textContent == "" then
        (errResp "No text content found on the website" fb, calls0)
      else
        let calls1 := calls0 ++ [ExtCall.qa roberta q textContent]
        match qres with
        | .err m => (errResp m fb, calls1)
        | .ok none =>
          ({ status := 500, field := "error", value := some fb }, calls1)
        | .ok (some qr) =>
          if undefOrEmpty qr.answer then
            ({ status := 500, field := "error", value := some fb }, calls1)
          else
            ({ status := 200, field := "answer", value := qr.answer }, calls1)


/-! ## Claim theorems -/

/-- C1: for the `/speech-to-text` operation, the temporary file backing the
upload is unlinked before the handler returns on every exit path once a file
was uploaded: synchronously on the path where the external call resolves
(including when it returns no text), and via the catch-block unlink on every
path where the file read or the external call throws. -/
theorem C1_speech_to_text_temp_file_deleted (p : String)
    (readRes : CallResult Unit) (ares : CallResult (Option AsrResp)) :
    FsOp.unlinkSync p ∈ (speechToTextHandler (some p) readRes ares).2.2 ∨
    FsOp.unlinkAsync p ∈ (speechToTextHandler (some p) readRes ares).2.2 := by
  cases readRes with
  | err m => right; simp [speechToTextHandler]
  | ok u =>
    cases ares with
    | err m => right; simp [speechToTextHandler]
    | ok resp =>
      cases resp with
      | none => left; simp [speechToTextHandler]
      | some r =>
        cases h : undefOrEmpty r.text <;> left <;> simp [speechToTextHandler, h]

/-- C2: on each of the five routes, a request missing any required field (or
with that field empty) is answered with status 400 and an `error` body, and
no external call is made. -/
theorem C2_missing_fields_reject_400_without_calls :
    (∀ text tgtLang sres tres,
      (undefOrEmpty text = true ∨ undefOrEmpty tgtLang = true) →
      (summarizeTextHandler text tgtLang sres tres).1.status = 400 ∧
      (summarizeTextHandler text tgtLang sres tres).1.field = "error" ∧
      (summarizeTextHandler text tgtLang sres tres).2 = []) ∧
    (∀ url tgtLang fres sres tres,
      (undefOrEmpty url = true ∨ undefOrEmpty tgtLang = true) →
      (summarizeHandler url tgtLang fres sres tres).1.status = 400 ∧
      (summarizeHandler url tgtLang fres sres tres).1.field = "error" ∧
      (summarizeHandler url tgtLang fres sres tres).2 = []) ∧
    (∀ readRes ares,
      (speechToTextHandler none readRes ares).1.status = 400 ∧
      (speechToTextHandler none readRes ares).1.field = "error" ∧
      (speechToTextHandler none readRes ares).2.1 = []) ∧
    (∀ text srcLang tgtLang tres,
      (undefOrEmpty text = true ∨ undefOrEmpty srcLang = true ∨ undefOrEmpty tgtLang = true) →
      (translateHandler text srcLang tgtLang tres).1.status = 400 ∧
      (translateHandler text srcLang tgtLang tres).1.field = "error" ∧
      (translateHandler text srcLang tgtLang tres).2 = []) ∧
    (∀ url question fres qres,
      (undefOrEmpty url = true ∨ undefOrEmpty question = true) →
      (qaHandler url question fres qres).1.status = 400 ∧
      (qaHandler url question fres qres).1.field = "error" ∧
      (qaHandler url question fres qres).2 = []) := by
  refine ⟨?_, ?_, ?_, ?_, ?_⟩
  · intro text tgtLang sres tres h
    have hc : (undefOrEmpty text || undefOrEmpty tgtLang) = true := by
      rcases h with h | h <;> simp [h]
    simp [summarizeTextHandler, hc]
  · intro url tgtLang fres sres tres h
    have hc : (undefOrEmpty url || undefOrEmpty tgtLang) = true := by
      rcases h with h | h <;> simp [h]
    simp [summarizeHandler, hc]
  · intro readRes ares
    simp [speechToTextHandler]
  · intro text srcLang tgtLang tres h
    have hc : (undefOrEmpty text || undefOrEmpty srcLang || undefOrEmpty tgtLang) = true := by
      rcases h with h | h | h <;> simp [h]
    simp [translateHandler, hc]
  · intro url question fres qres h
    have hc : (undefOrEmpty url || undefOrEmpty question) = true := by
      rcases h with h | h <;> simp [h]
    simp [qaHandler, hc]

/-- Witness for C2: concrete requests, each with a required field missing. -/
theorem C2_missing_fields_reject_400_without_calls_witness :
    ((summarizeTextHandler none (some "amh_Ethi") (.err "x") (.err "x")).1.status = 400 ∧
     (summarizeTextHandler none (some "amh_Ethi") (.err "x") (.err "x")).1.field = "error" ∧
     (summarizeTextHandler none (some "amh_Ethi") (.err "x") (.err "x")).2 = []) ∧
    ((summarizeHandler (some "http://e.com") none (.err "x") (.err "x") (.err "x")).1.status = 400 ∧
     (summarizeHandler (some "http://e.com") none (.err "x") (.err "x") (.err "x")).1.field = "error" ∧
     (summarizeHandler (some "http://e.com") none (.err "x") (.err "x") (.err "x")).2 = []) ∧
    ((speechToTextHandler none (.err "x") (.err "x")).1.status = 400 ∧
     (speechToTextHandler none (.err "x") (.err "x")).1.field = "error" ∧
     (speechToTextHandler none (.err "x") (.err "x")).2.1 = []) ∧
    ((translateHandler (some "hi") (some "") (some "amh_Ethi") (.err "x")).1.status = 400 ∧
     (translateHandler (some "hi") (some "") (some "amh_Ethi") (.err "x")).1.field = "error" ∧
     (translateHandler (some "hi") (some "") (some "amh_Ethi") (.err "x")).2 = []) ∧
    ((qaHandler (some "http://e.com") none (.err "x") (.err "x")).1.status = 400 ∧
     (qaHandler (some "http://e.com") none (.err "x") (.err "x")).1.field = "error" ∧
     (qaHandler (some "http://e.com") none (.err "x") (.err "x")).2 = []) :=
  ⟨C2_missing_fields_reject_400_without_calls.1 none (some "amh_Ethi") (.err "x") (.err "x")
      (Or.inl rfl),
   C2_missing_fields_reject_400_without_calls.2.1 (some "http://e.com") none (.err "x") (.err "x")
      (.err "x") (Or.inr rfl),
   C2_missing_fields_reject_400_without_calls.2.2.1 (.err "x") (.err "x"),
   C2_missing_fields_reject_400_without_calls.2.2.2.1 (some "hi") (some "") (some "amh_Ethi")
      (.err "x") (Or.inr (Or.inl rfl)),
   C2_missing_fields_reject_400_without_calls.2.2.2.2 (some "http://e.com") none (.err "x")
      (.err "x") (Or.inr rfl)⟩

/-- C7: the text extraction function applied to
`"<script>x</script><p>Hello</p>"` returns exactly `"Hello"`. -/
theorem C7_extract_concrete_hello :
    extractTextFromHTML "<script>x</script><p>Hello</p>" = "Hello" := by decide

/-- C6 counterexample: the script-block pattern's dot does not match line
terminators, so a `<script>` block whose body contains a newline is not
removed as a block; only its tags are stripped and its entire body — content
enclosed in a script element — appears in the output, refuting the claim that
no such content ever appears. -/
theorem C6_counterexample :
    extractTextFromHTML "<script>a\nb</script>" = "a\nb" ∧
    extractTextFromHTML "<script>a\nb</script>" ≠ "" := by decide

/-- C4 counterexample: on both route variants, when the external translation
call resolves with a response object that has no `translation_text` field,
the handler does not fail: it sends a 200 success response whose summary
field is `undefined` (no `TranslationError`, no error response). -/
theorem C4_counterexample :
    (summarizeTextHandler (some "hello") (some "amh_Ethi")
        (.ok (some ⟨some "S"⟩)) (.ok (some ⟨none⟩))).1 =
      { status := 200, field := "translatedSummary", value := none } ∧
    (summarizeHandler (some "http://e.com") (some "amh_Ethi") (.ok "<p>hi</p>")
        (.ok (some ⟨some "S"⟩)) (.ok (some ⟨none⟩))).1 =
      { status := 200, field := "summary", value := none } := by decide

/-- C9 counterexample: a translation response that resolves but lacks the
`translation_text` field is not treated as a failure by `/translate`: the
handler answers 200 with an `undefined` `translatedText`, not a 500
`"Translation failed"`. -/
theorem C9_counterexample :
    (translateHandler (some "hello") (some "eng_Latn") (some "amh_Ethi")
        (.ok (some ⟨none⟩))).1 =
      { status := 200, field := "translatedText", value := none } := by decide

/-- C10: a `/summarize-text` request whose `text` is present but trims to
empty is answered with the 500 server error `"No valid text content
provided"` (not the 400 validation error), and no external call is made. -/
theorem C10_whitespace_text_500_server_error (w tgt : String)
    (sres : CallResult (Option SummaryResp)) (tres : CallResult (Option TranslationResp))
    (hw : w ≠ "") (hwt : jsTrim w = "") (htgt : tgt ≠ "") :
    (summarizeTextHandler (some w) (some tgt) sres tres).1 =
      { status := 500, field := "error", value := some "No valid text content provided" } ∧
    (summarizeTextHandler (some w) (some tgt) sres tres).2 = [] := by
  have h1 : undefOrEmpty (some w) = false := by simp [undefOrEmpty, hw]
  have h2 : undefOrEmpty (some tgt) = false := by simp [undefOrEmpty, htgt]
  have h3 : (jsTrim w == "") = true := by simp [hwt]
  simp [summarizeTextHandler, h1, h2, h3, errResp]

/-- Witness for C10: a one-space `text` field. -/
theorem C10_whitespace_text_500_server_error_witness :
    (summarizeTextHandler (some " ") (some "amh_Ethi") (.err "boom") (.err "boom")).1 =
      { status := 500, field := "error", value := some "No valid text content provided" } ∧
    (summarizeTextHandler (some " ") (some "amh_Ethi") (.err "boom") (.err "boom")).2 = [] :=
  C10_whitespace_text_500_server_error " " "amh_Ethi" (.err "boom") (.err "boom")
    (by decide) (by decide) (by decide)

/-- C5: on `/summarize` and `/qa`, when the fetched page's extracted text is
empty or whitespace-only after trimming, the request ends with a 500 response
and the only external call made is the page fetch — no inference call. -/
theorem C5_empty_extraction_500_before_inference :
    (∀ (u tgt html : String) sres tres, u ≠ "" → tgt ≠ "" →
      jsTrim (extractTextFromHTML html) = "" →
      (summarizeHandler (some u) (some tgt) (.ok html) sres tres).1.status = 500 ∧
      (summarizeHandler (some u) (some tgt) (.ok html) sres tres).2 = [ExtCall.fetch u]) ∧
    (∀ (u q html : String) qres, u ≠ "" → q ≠ "" →
      jsTrim (extractTextFromHTML html) = "" →
      (qaHandler (some u) (some q) (.ok html) qres).1.status = 500 ∧
      (qaHandler (some u) (some q) (.ok html) qres).2 = [ExtCall.fetch u]) := by
  constructor
  · intro u tgt html sres tres hu htgt hemp
    have h1 : undefOrEmpty (some u) = false := by simp [undefOrEmpty, hu]
    have h2 : undefOrEmpty (some tgt) = false := by simp [undefOrEmpty, htgt]
    have h3 : (jsTrim (extractTextFromHTML html) == "") = true := by simp [hemp]
    simp [summarizeHandler, h1, h2, h3, errResp]
  · intro u q html qres hu hq hemp
    have h1 : undefOrEmpty (some u) = false := by simp [undefOrEmpty, hu]
    have h2 : undefOrEmpty (some q) = false := by simp [undefOrEmpty, hq]
    have h3 : (jsTrim (extractTextFromHTML html) == "") = true := by simp [hemp]
    simp [qaHandler, h1, h2, h3, errResp]

/-- Witness for C5: a page whose markup strips to whitespace only. -/
theorem C5_empty_extraction_500_before_inference_witness :
    ((summarizeHandler (some "http://e.com") (some "amh_Ethi") (.ok "<p> </p>")
        (.err "x") (.err "x")).1.status = 500 ∧
     (summarizeHandler (some "http://e.com") (some "amh_Ethi") (.ok "<p> </p>")
        (.err "x") (.err "x")).2 = [ExtCall.fetch "http://e.com"]) ∧
    ((qaHandler (some "http://e.com") (some "who?") (.ok "<p> </p>")
        (.err "x")).1.status = 500 ∧
     (qaHandler (some "http://e.com") (some "who?") (.ok "<p> </p>")
        (.err "x")).2 = [ExtCall.fetch "http://e.com"]) :=
  ⟨C5_empty_extraction_500_before_inference.1 "http://e.com" "amh_Ethi" "<p> </p>"
      (.err "x") (.err "x") (by decide) (by decide) (by decide),
   C5_empty_extraction_500_before_inference.2 "http://e.com" "who?" "<p> </p>"
      (.err "x") (by decide) (by decide) (by decide)⟩

/-- C8: on successful requests carrying the same translation result, the
`/summarize-text` route answers `{translatedSummary}` while `/summarize`
answers `{summary}`; status and value coincide, only the field name
differs. -/
theorem C8_success_shapes_differ_only_in_field_name
    (t u tgt html s : String) (tr : TranslationResp)
    (ht0 : t ≠ "") (ht : jsTrim t ≠ "") (htgt : tgt ≠ "") (hu : u ≠ "")
    (hh0 : extractTextFromHTML html ≠ "") (hh : jsTrim (extractTextFromHTML html) ≠ "")
    (hs : s ≠ "") :
    (summarizeTextHandler (some t) (some tgt) (.ok (some ⟨some s⟩)) (.ok (some tr))).1 =
      { status := 200, field := "translatedSummary", value := tr.translation_text } ∧
    (summarizeHandler (some u) (some tgt) (.ok html) (.ok (some ⟨some s⟩)) (.ok (some tr))).1 =
      { status := 200, field := "summary", value := tr.translation_text } := by
  have h1 : undefOrEmpty (some t) = false := by simp [undefOrEmpty, ht0]
  have h2 : undefOrEmpty (some tgt) = false := by simp [undefOrEmpty, htgt]
  have h3 : (jsTrim t == "") = false := by simp [ht]
  have h4 : undefOrEmpty (some u) = false := by simp [undefOrEmpty, hu]
  have h5 : (extractTextFromHTML html == "") = false := by simp [hh0]
  have h6 : (jsTrim (extractTextFromHTML html) == "") = false := by simp [hh]
  have h7 : undefOrEmpty (some s) = false := by simp [undefOrEmpty, hs]
  constructor
  · simp [summarizeTextHandler, h1, h2, h3, h7]
  · simp [summarizeHandler, h4, h2, h5, h6, h7]

/-- Witness for C8: both routes succeed on equivalent content and the same
translation result. -/
theorem C8_success_shapes_differ_only_in_field_name_witness :
    (summarizeTextHandler (some "hello") (some "amh_Ethi")
        (.ok (some ⟨some "S"⟩)) (.ok (some ⟨some "T"⟩))).1 =
      { status := 200, field := "translatedSummary", value := some "T" } ∧
    (summarizeHandler (some "http://e.com") (some "amh_Ethi") (.ok "<p>hello</p>")
        (.ok (some ⟨some "S"⟩)) (.ok (some ⟨some "T"⟩))).1 =
      { status := 200, field := "summary", value := some "T" } :=
  C8_success_shapes_differ_only_in_field_name "hello" "http://e.com" "amh_Ethi"
    "<p>hello</p>" "S" ⟨some "T"⟩ (by decide) (by decide) (by decide) (by decide)
    (by decide) (by decide) (by decide)

/-- C9 (amended): `/translate` reaches its catch block — and thus fails —
exactly when the external call rejects or resolves null (property access
throws); every such failure is surfaced as 500 with the generic
`"Translation failed"` message regardless of root cause.  A resolved
non-null response is never a failure: it yields 200 with `translatedText`
bound to whatever `translation_text` holds (possibly `undefined`). -/
theorem C9_amended_translate_failure_surface (t s g m : String)
    (tr : TranslationResp) (h1 : t ≠ "") (h2 : s ≠ "") (h3 : g ≠ "") :
    ((translateHandler (some t) (some s) (some g) (.err m)).1 =
      { status := 500, field := "error", value := some "Translation failed" }) ∧
    ((translateHandler (some t) (some s) (some g) (.ok none)).1 =
      { status := 500, field := "error", value := some "Translation failed" }) ∧
    ((translateHandler (some t) (some s) (some g) (.ok (some tr))).1 =
      { status := 200, field := "translatedText", value := tr.translation_text }) := by
  have hb1 : undefOrEmpty (some t) = false := by simp [undefOrEmpty, h1]
  have hb2 : undefOrEmpty (some s) = false := by simp [undefOrEmpty, h2]
  have hb3 : undefOrEmpty (some g) = false := by simp [undefOrEmpty, h3]
  refine ⟨?_, ?_, ?_⟩ <;> simp [translateHandler, hb1, hb2, hb3]

/-- Witness for C9 (amended). -/
theorem C9_amended_translate_failure_surface_witness :
    ((translateHandler (some "hi") (some "eng_Latn") (some "amh_Ethi") (.err "socket hang up")).1 =
      { status := 500, field := "error", value := some "Translation failed" }) ∧
    ((translateHandler (some "hi") (some "eng_Latn") (some "amh_Ethi") (.ok none)).1 =
      { status := 500, field := "error", value := some "Translation failed" }) ∧
    ((translateHandler (some "hi") (some "eng_Latn") (some "amh_Ethi") (.ok (some ⟨some "T"⟩))).1 =
      { status := 200, field := "translatedText", value := some "T" }) :=
  C9_amended_translate_failure_surface "hi" "eng_Latn" "amh_Ethi" "socket hang up"
    ⟨some "T"⟩ (by decide) (by decide) (by decide)

/-- C4 (amended): on both summarize routes, a translation response that
resolves non-null but without a `translation_text` field is not an error: the
handler answers 200, binding the summary field to the (absent) value.  Only a
rejected translation call or a null response produces an error response. -/
theorem C4_amended_missing_translation_field_yields_200
    (t u tgt html s m : String) (tr : TranslationResp)
    (ht0 : t ≠ "") (ht : jsTrim t ≠ "") (htgt : tgt ≠ "") (hu : u ≠ "")
    (hh0 : extractTextFromHTML html ≠ "") (hh : jsTrim (extractTextFromHTML html) ≠ "")
    (hs : s ≠ "") :
    ((summarizeTextHandler (some t) (some tgt) (.ok (some ⟨some s⟩)) (.ok (some tr))).1.status
        = 200) ∧
    ((summarizeHandler (some u) (some tgt) (.ok html) (.ok (some ⟨some s⟩)) (.ok (some tr))).1.status
        = 200) ∧
    ((summarizeTextHandler (some t) (some tgt) (.ok (some ⟨some s⟩)) (.err m)).1.status = 500) ∧
    ((summarizeTextHandler (some t) (some tgt) (.ok (some ⟨some s⟩)) (.err m)).1.field = "error") ∧
    ((summarizeHandler (some u) (some tgt) (.ok html) (.ok (some ⟨some s⟩)) (.err m)).1.status
        = 500) ∧
    ((summarizeHandler (some u) (some tgt) (.ok html) (.ok (some ⟨some s⟩)) (.err m)).1.field
        = "error") ∧
    ((summarizeTextHandler (some t) (some tgt) (.ok (some ⟨some s⟩)) (.ok none)).1.status = 500) ∧
    ((summarizeHandler (some u) (some tgt) (.ok html) (.ok (some ⟨some s⟩)) (.ok none)).1.status
        = 500) := by
  have h1 : undefOrEmpty (some t) = false := by simp [undefOrEmpty, ht0]
  have h2 : undefOrEmpty (some tgt) = false := by simp [undefOrEmpty, htgt]
  have h3 : (jsTrim t == "") = false := by simp [ht]
  have h4 : undefOrEmpty (some u) = false := by simp [undefOrEmpty, hu]
  have h5 : (extractTextFromHTML html == "") = false := by simp [hh0]
  have h6 : (jsTrim (extractTextFromHTML html) == "") = false := by simp [hh]
  have h7 : undefOrEmpty (some s) = false := by simp [undefOrEmpty, hs]
  refine ⟨?_, ?_, ?_, ?_, ?_, ?_, ?_, ?_⟩ <;>
    simp [summarizeTextHandler, summarizeHandler, h1, h2, h3, h4, h5, h6, h7, errResp]

/-- Witness for C4 (amended). -/
theorem C4_amended_missing_translation_field_yields_200_witness :
    ((summarizeTextHandler (some "hello") (some "amh_Ethi")
        (.ok (some ⟨some "S"⟩)) (.ok (some ⟨none⟩))).1.status = 200) ∧
    ((summarizeHandler (some "http://e.com") (some "amh_Ethi") (.ok "<p>hello</p>")
        (.ok (some ⟨some "S"⟩)) (.ok (some ⟨none⟩))).1.status = 200) ∧
    ((summarizeTextHandler (some "hello") (some "amh_Ethi")
        (.ok (some ⟨some "S"⟩)) (.err "boom")).1.status = 500) ∧
    ((summarizeTextHandler (some "hello") (some "amh_Ethi")
        (.ok (some ⟨some "S"⟩)) (.err "boom")).1.field = "error") ∧
    ((summarizeHandler (some "http://e.com") (some "amh_Ethi") (.ok "<p>hello</p>")
        (.ok (some ⟨some "S"⟩)) (.err "boom")).1.status = 500) ∧
    ((summarizeHandler (some "http://e.com") (some "amh_Ethi") (.ok "<p>hello</p>")
        (.ok (some ⟨some "S"⟩)) (.err "boom")).1.field = "error") ∧
    ((summarizeTextHandler (some "hello") (some "amh_Ethi")
        (.ok (some ⟨some "S"⟩)) (.ok none)).1.status = 500) ∧
    ((summarizeHandler (some "http://e.com") (some "amh_Ethi") (.ok "<p>hello</p>")
        (.ok (some ⟨some "S"⟩)) (.ok none)).1.status = 500) :=
  C4_amended_missing_translation_field_yields_200 "hello" "http://e.com" "amh_Ethi"
    "<p>hello</p>" "S" "boom" ⟨none⟩ (by decide) (by decide) (by decide) (by decide)
    (by decide) (by decide) (by decide)

/-- C3: every successful request on either summarize route first issued the
summarization call (model pegasus-xsum, `max_length` 70, `min_length` 50) on
the source text, and then — strictly after it resolved — the translation call
whose input is exactly the returned `summary_text`, with source language
`"eng_Latn"` and the caller-supplied target language. -/
theorem C3_summarize_then_translate_ordering :
    (∀ text tgtLang sres tres,
      (summarizeTextHandler text tgtLang sres tres).1.status = 200 →
      ∃ (t tgt s : String) (sr : SummaryResp) (tr : TranslationResp),
        text = some t ∧ tgtLang = some tgt ∧
        sres = .ok (some sr) ∧ sr.summary_text = some s ∧ tres = .ok (some tr) ∧
        (summarizeTextHandler text tgtLang sres tres).2 =
          [ExtCall.summarization pegasus t 70 50,
           ExtCall.translation nllb s "eng_Latn" tgt]) ∧
    (∀ url tgtLang fres sres tres,
      (summarizeHandler url tgtLang fres sres tres).1.status = 200 →
      ∃ (u tgt html s : String) (sr : SummaryResp) (tr : TranslationResp),
        url = some u ∧ tgtLang = some tgt ∧ fres = .ok html ∧
        sres = .ok (some sr) ∧ sr.summary_text = some s ∧ tres = .ok (some tr) ∧
        (summarizeHandler url tgtLang fres sres tres).2 =
          [ExtCall.fetch u,
           ExtCall.summarization pegasus (extractTextFromHTML html) 70 50,
           ExtCall.translation nllb s "eng_Latn" tgt]) := by
  constructor
  · intro text tgtLang sres tres h
    cases text with
    | none => simp [summarizeTextHandler, undefOrEmpty] at h
    | some t =>
    cases tgtLang with
    | none => simp [summarizeTextHandler, undefOrEmpty] at h
    | some tgt =>
    by_cases h1 : t = ""
    · simp [summarizeTextHandler, undefOrEmpty, h1] at h
    by_cases h2 : tgt = ""
    · simp [summarizeTextHandler, undefOrEmpty, h2] at h
    by_cases h3 : jsTrim t = ""
    · simp [summarizeTextHandler, undefOrEmpty, h1, h2, h3, errResp] at h
    cases sres with
    | err m => simp [summarizeTextHandler, undefOrEmpty, h1, h2, h3, errResp] at h
    | ok osr =>
    cases osr with
    | none => simp [summarizeTextHandler, undefOrEmpty, h1, h2, h3, errResp] at h
    | some sr =>
    cases hst : sr.summary_text with
    | none =>
      simp [summarizeTextHandler, undefOrEmpty, h1, h2, h3, hst, errResp] at h
    | some s =>
    by_cases hs : s = ""
    · simp [summarizeTextHandler, undefOrEmpty, h1, h2, h3, hst, hs, errResp] at h
    cases tres with
    | err m =>
      simp [summarizeTextHandler, undefOrEmpty, h1, h2, h3, hst, hs, errResp] at h
    | ok otr =>
    cases otr with
    | none =>
      simp [summarizeTextHandler, undefOrEmpty, h1, h2, h3, hst, hs, errResp] at h
    | some tr =>
    exact ⟨t, tgt, s, sr, tr, rfl, rfl, rfl, hst, rfl, by
      simp [summarizeTextHandler, undefOrEmpty, h1, h2, h3, hst, hs]⟩
  · intro url tgtLang fres sres tres h
    cases url with
    | none => simp [summarizeHandler, undefOrEmpty] at h
    | some u =>
    cases tgtLang with
    | none => simp [summarizeHandler, undefOrEmpty] at h
    | some tgt =>
    by_cases h1 : u = ""
    · simp [summarizeHandler, undefOrEmpty, h1] at h
    by_cases h2 : tgt = ""
    · simp [summarizeHandler, undefOrEmpty, h2] at h
    cases fres with
    | err m => simp [summarizeHandler, undefOrEmpty, h1, h2, errResp] at h
    | ok html =>
    by_cases h3 : extractTextFromHTML html = ""
    · simp [summarizeHandler, undefOrEmpty, h1, h2, h3, errResp] at h
    by_cases h4 : jsTrim (extractTextFromHTML html) = ""
    · simp [summarizeHandler, undefOrEmpty, h1, h2, h3, h4, errResp] at h
    cases sres with
    | err m => simp [summarizeHandler, undefOrEmpty, h1, h2, h3, h4, errResp] at h
    | ok osr =>
    cases osr with
    | none => simp [summarizeHandler, undefOrEmpty, h1, h2, h3, h4, errResp] at h
    | some sr =>
    cases hst : sr.summary_text with
    | none =>
      simp [summarizeHandler, undefOrEmpty, h1, h2, h3, h4, hst, errResp] at h
    | some s =>
    by_cases hs : s = ""
    · simp [summarizeHandler, undefOrEmpty, h1, h2, h3, h4, hst, hs, errResp] at h
    cases tres with
    | err m =>
      simp [summarizeHandler, undefOrEmpty, h1, h2, h3, h4, hst, hs, errResp] at h
    | ok otr =>
    cases otr with
    | none =>
      simp [summarizeHandler, undefOrEmpty, h1, h2, h3, h4, hst, hs, errResp] at h
    | some tr =>
    exact ⟨u, tgt, html, s, sr, tr, rfl, rfl, rfl, rfl, hst, rfl, by
      simp [summarizeHandler, undefOrEmpty, h1, h2, h3, h4, hst, hs]⟩

/-- Witness for C3: concrete successful requests on both routes. -/
theorem C3_summarize_then_translate_ordering_witness :
    (∃ (t tgt s : String) (sr : SummaryResp) (tr : TranslationResp),
      (some "hello world" : Option String) = some t ∧
      (some "amh_Ethi" : Option String) = some tgt ∧
      (CallResult.ok (some ⟨some "S"⟩) : CallResult (Option SummaryResp)) = .ok (some sr) ∧
      sr.summary_text = some s ∧
      (CallResult.ok (some ⟨some "T"⟩) : CallResult (Option TranslationResp)) = .ok (some tr) ∧
      (summarizeTextHandler (some "hello world") (some "amh_Ethi")
          (.ok (some ⟨some "S"⟩)) (.ok (some ⟨some "T"⟩))).2 =
        [ExtCall.summarization pegasus t 70 50,
         ExtCall.translation nllb s "eng_Latn" tgt]) ∧
    (∃ (u tgt html s : String) (sr : SummaryResp) (tr : TranslationResp),
      (some "http://e.com" : Option String) = some u ∧
      (some "amh_Ethi" : Option String) = some tgt ∧
      (CallResult.ok "<p>hello</p>" : CallResult String) = .ok html ∧
      (CallResult.ok (some ⟨some "S"⟩) : CallResult (Option SummaryResp)) = .ok (some sr) ∧
      sr.summary_text = some s ∧
      (CallResult.ok (some ⟨some "T"⟩) : CallResult (Option TranslationResp)) = .ok (some tr) ∧
      (summarizeHandler (some "http://e.com") (some "amh_Ethi") (.ok "<p>hello</p>")
          (.ok (some ⟨some "S"⟩)) (.ok (some ⟨some "T"⟩))).2 =
        [ExtCall.fetch u,
         ExtCall.summarization pegasus (extractTextFromHTML html) 70 50,
         ExtCall.translation nllb s "eng_Latn" tgt]) :=
  ⟨C3_summarize_then_translate_ordering.1 (some "hello world") (some "amh_Ethi")
      (.ok (some ⟨some "S"⟩)) (.ok (some ⟨some "T"⟩)) (by decide),
   C3_summarize_then_translate_ordering.2 (some "http://e.com") (some "amh_Ethi")
      (.ok "<p>hello</p>") (.ok (some ⟨some "S"⟩)) (.ok (some ⟨some "T"⟩)) (by decide)⟩

/-! ## Lemmas on block removal, for the corrected extraction claim -/

theorem ciStrip_self : ∀ (tok r : List Char), ciStrip tok (tok ++ r) = some r := by
  intro tok r
  induction tok with
  | nil => simp [ciStrip]
  | cons p ps ih => simp [ciStrip, ciCharMatch, ih]

theorem ciCharMatch_head_lt_false (c : Char) (hc : c ≠ '<') : ciCharMatch '<' c = false := by
  have h2 : ('<'.isLower) = false := by decide
  simp [ciCharMatch, h2]
  exact fun e => hc e.symm

theorem ciStrip_head_lt_none (tok l : List Char) (c : Char)
    (htok : ∃ t, tok = '<' :: t) (hc : c ≠ '<') : ciStrip tok (c :: l) = none := by
  obtain ⟨t, rfl⟩ := htok
  simp [ciStrip, ciCharMatch_head_lt_false c hc]

theorem lazyCi_boundary (closeTok rest : List Char) (htok : ∃ t, closeTok = '<' :: t) :
    ∀ (body : List Char), (∀ c ∈ body, c ≠ '<' ∧ isLineTerm c = false) →
      lazyCi closeTok (body ++ (closeTok ++ rest)) = some rest := by
  intro body
  induction body with
  | nil =>
    intro _
    obtain ⟨t, rfl⟩ := htok
    have hcs := ciStrip_self ('<' :: t) rest
    simp only [List.cons_append] at hcs
    simp only [List.nil_append, List.cons_append, lazyCi, List.append_eq]
    rw [hcs]
  | cons c body' ih =>
    intro hb
    have hc := hb c (by simp)
    simp only [List.cons_append, lazyCi, List.append_eq]
    rw [ciStrip_head_lt_none closeTok (body' ++ (closeTok ++ rest)) c htok hc.1, hc.2]
    simpa using ih (fun c' hm => hb c' (by simp [hm]))

theorem closeAfterOpen_direct (closeTok body rest : List Char)
    (htok : ∃ t, closeTok = '<' :: t)
    (hb : ∀ c ∈ body, c ≠ '<' ∧ isLineTerm c = false) :
    closeAfterOpen closeTok ('>' :: (body ++ (closeTok ++ rest))) = some rest := by
  simp only [closeAfterOpen]
  rw [lazyCi_boundary closeTok rest htok body hb]
  simp

theorem blockEnd_match (openTok closeTok body rest : List Char)
    (htok : ∃ t, closeTok = '<' :: t)
    (hb : ∀ c ∈ body, c ≠ '<' ∧ isLineTerm c = false) :
    blockEnd openTok closeTok (openTok ++ ('>' :: (body ++ (closeTok ++ rest)))) = some rest := by
  unfold blockEnd
  rw [ciStrip_self]
  exact closeAfterOpen_direct closeTok body rest htok hb

theorem removeBlocks_match (openTok closeTok body rest : List Char)
    (hopen : ∃ t, openTok = '<' :: t)
    (hclose : ∃ t, closeTok = '<' :: t)
    (hb : ∀ c ∈ body, c ≠ '<' ∧ isLineTerm c = false) :
    removeBlocks openTok closeTok (openTok ++ ('>' :: (body ++ (closeTok ++ rest)))) =
      removeBlocks openTok closeTok rest := by
  have hbe := blockEnd_match openTok closeTok body rest hclose hb
  obtain ⟨t, rfl⟩ := hopen
  simp only [List.cons_append] at hbe ⊢
  rw [removeBlocks_cons, hbe]

theorem removeBlocks_no_lt (openTok closeTok : List Char)
    (hopen : ∃ t, openTok = '<' :: t) :
    ∀ (l : List Char), (∀ c ∈ l, c ≠ '<') → removeBlocks openTok closeTok l = l := by
  intro l
  induction l with
  | nil => intro _; rfl
  | cons c cs ih =>
    intro h
    rw [removeBlocks_cons]
    have hbe : blockEnd openTok closeTok (c :: cs) = none := by
      unfold blockEnd
      rw [ciStrip_head_lt_none openTok cs c hopen (h c (by simp))]
    rw [hbe, ih (fun c' hm => h c' (by simp [hm]))]

theorem removeBlocks_append_no_lt (openTok closeTok : List Char)
    (hopen : ∃ t, openTok = '<' :: t) :
    ∀ (p q : List Char), (∀ c ∈ p, c ≠ '<') →
      removeBlocks openTok closeTok (p ++ q) = p ++ removeBlocks openTok closeTok q := by
  intro p
  induction p with
  | nil => intro q _; simp
  | cons c p' ih =>
    intro q h
    simp only [List.cons_append]
    rw [removeBlocks_cons]
    have hbe : blockEnd openTok closeTok (c :: (p' ++ q)) = none := by
      unfold blockEnd
      rw [ciStrip_head_lt_none openTok (p' ++ q) c hopen (h c (by simp))]
    rw [hbe, ih q (fun c' hm => h c' (by simp [hm]))]

theorem ciStrip_scriptOpen_st_none (l : List Char) :
    ciStrip scriptOpen ('<' :: 's' :: 't' :: l) = none := by
  have h1 : ciCharMatch '<' '<' = true := by decide
  have h2 : ciCharMatch 's' 's' = true := by decide
  have h3 : ciCharMatch 'c' 't' = false := by decide
  rw [show scriptOpen = '<' :: 's' :: 'c' :: ['r', 'i', 'p', 't'] from rfl]
  simp [ciStrip, h1, h2, h3]

theorem ciStrip_scriptOpen_slash_none (l : List Char) :
    ciStrip scriptOpen ('<' :: '/' :: l) = none := by
  have h1 : ciCharMatch '<' '<' = true := by decide
  have h2 : ciCharMatch 's' '/' = false := by decide
  rw [show scriptOpen = '<' :: 's' :: ['c', 'r', 'i', 'p', 't'] from rfl]
  simp [ciStrip, h1, h2]

/-- The script-removal pass leaves a `<style>` block (with `'<'`-free,
single-line body, in a `'<'`-free remainder) untouched. -/
theorem removeScripts_style_passthrough (body rest : List Char)
    (hb : ∀ c ∈ body, c ≠ '<') (hr : ∀ c ∈ rest, c ≠ '<') :
    removeBlocks scriptOpen scriptClose (styleOpen ++ '>' :: (body ++ (styleClose ++ rest))) =
      styleOpen ++ '>' :: (body ++ (styleClose ++ rest)) := by
  have e1 : styleOpen ++ '>' :: (body ++ (styleClose ++ rest)) =
      '<' :: 's' :: 't' :: ((['y', 'l', 'e', '>'] ++ body) ++ (styleClose ++ rest)) := by
    rw [show styleOpen = '<' :: 's' :: 't' :: ['y', 'l', 'e'] from rfl]
    simp
  rw [e1]
  rw [removeBlocks_cons]
  have hbe1 : blockEnd scriptOpen scriptClose
      ('<' :: 's' :: 't' :: ((['y', 'l', 'e', '>'] ++ body) ++ (styleClose ++ rest))) = none := by
    unfold blockEnd
    rw [ciStrip_scriptOpen_st_none]
  rw [hbe1]
  have e2 : ('s' :: 't' :: ((['y', 'l', 'e', '>'] ++ body) ++ (styleClose ++ rest)) : List Char) =
      (['s', 't', 'y', 'l', 'e', '>'] ++ body) ++ (styleClose ++ rest) := by simp
  rw [e2]
  have hp1 : ∀ c ∈ (['s', 't', 'y', 'l', 'e', '>'] ++ body), c ≠ '<' := by
    intro c hm
    rcases List.mem_append.mp hm with hm | hm
    · simp at hm
      rcases hm with rfl | rfl | rfl | rfl | rfl | rfl <;> decide
    · exact hb c hm
  rw [removeBlocks_append_no_lt scriptOpen scriptClose ⟨_, rfl⟩ _ _ hp1]
  have e3 : (styleClose ++ rest : List Char) =
      '<' :: '/' :: (['s', 't', 'y', 'l', 'e', '>'] ++ rest) := by
    rw [show styleClose = '<' :: '/' :: ['s', 't', 'y', 'l', 'e', '>'] from rfl]
    simp
  rw [e3, removeBlocks_cons]
  have hbe2 : blockEnd scriptOpen scriptClose
      ('<' :: '/' :: (['s', 't', 'y', 'l', 'e', '>'] ++ rest)) = none := by
    unfold blockEnd
    rw [ciStrip_scriptOpen_slash_none]
  rw [hbe2]
  have e4 : ('/' :: (['s', 't', 'y', 'l', 'e', '>'] ++ rest) : List Char) =
      ['/', 's', 't', 'y', 'l', 'e', '>'] ++ rest := by simp
  rw [e4]
  have hp2 : ∀ c ∈ (['/', 's', 't', 'y', 'l', 'e', '>'] : List Char), c ≠ '<' := by
    intro c hm
    simp at hm
    rcases hm with rfl | rfl | rfl | rfl | rfl | rfl | rfl <;> decide
  rw [removeBlocks_append_no_lt scriptOpen scriptClose ⟨_, rfl⟩ _ _ hp2]
  rw [removeBlocks_no_lt scriptOpen scriptClose ⟨_, rfl⟩ rest hr]

/-- C6 (amended): the extraction pipeline removes a `<script>…</script>` or
`<style>…</style>` block together with its entire body when the JS pattern
matches it — in particular whenever the body contains no line terminator and
no `'<'`; with a `'<'`-free document remainder the result is exactly the
tag-stripped, trimmed remainder.  (Content of blocks the pattern cannot
match — e.g. with a line terminator in the body, cf. the counterexample —
survives tag-stripping.) -/
theorem C6_amended_matched_blocks_removed (body rest : List Char)
    (hb : ∀ c ∈ body, c ≠ '<' ∧ isLineTerm c = false)
    (hr : ∀ c ∈ rest, c ≠ '<') :
    extractChars (scriptOpen ++ '>' :: (body ++ (scriptClose ++ rest))) =
      trimChars (stripTagsGo rest) ∧
    extractChars (styleOpen ++ '>' :: (body ++ (styleClose ++ rest))) =
      trimChars (stripTagsGo rest) ∧
    extractChars rest = trimChars (stripTagsGo rest) := by
  have hrid_s : removeBlocks scriptOpen scriptClose rest = rest :=
    removeBlocks_no_lt scriptOpen scriptClose ⟨_, rfl⟩ rest hr
  have hrid_y : removeBlocks styleOpen styleClose rest = rest :=
    removeBlocks_no_lt styleOpen styleClose ⟨_, rfl⟩ rest hr
  refine ⟨?_, ?_, ?_⟩
  · unfold extractChars
    rw [removeBlocks_match scriptOpen scriptClose body rest ⟨_, rfl⟩ ⟨_, rfl⟩ hb,
      hrid_s, hrid_y]
  · unfold extractChars
    rw [removeScripts_style_passthrough body rest (fun c hm => (hb c hm).1) hr]
    rw [removeBlocks_match styleOpen styleClose body rest ⟨_, rfl⟩ ⟨_, rfl⟩ hb, hrid_y]
  · unfold extractChars
    rw [hrid_s, hrid_y]

/-- Witness for the amended C6: a concrete single-line script/style body and
remainder. -/
theorem C6_amended_matched_blocks_removed_witness :
    extractChars (scriptOpen ++ '>' :: (['v', 'a', 'r', ' ', 'x'] ++
        (scriptClose ++ ['h', 'i']))) = trimChars (stripTagsGo ['h', 'i']) ∧
    extractChars (styleOpen ++ '>' :: (['v', 'a', 'r', ' ', 'x'] ++
        (styleClose ++ ['h', 'i']))) = trimChars (stripTagsGo ['h', 'i']) ∧
    extractChars ['h', 'i'] = trimChars (stripTagsGo ['h', 'i']) :=
  C6_amended_matched_blocks_removed ['v', 'a', 'r', ' ', 'x'] ['h', 'i']
    (by decide) (by decide)
